import Mathlib

/-!
Verification of the VendorVault billing core: the `Bill` model
(src/src/models/bill.py), the invoice-number sequencer
(src/src/logic/billing.py, BillingService.generate_invoice_number, using
src/src/database/connection.py get_cursor transaction semantics), and the
CGST/SGST split of the PDF generator (src/src/utils/pdf_generator.py).
Monetary values (Python floats) are embedded as rationals, quantities as
integers, and the per-date invoice-sequence table as a map from date
strings to an optional last_sequence.
-/

/-- Embeds BillItem from src/src/models/bill.py. -/
structure BillItem where
  product_name : String
  quantity : Int
  unit_price : Rat
deriving DecidableEq

/-- Embeds BillItem.get_total: quantity * unit_price. -/
def BillItem.get_total (it : BillItem) : Rat :=
  (it.quantity : Rat) * it.unit_price

/-- Embeds the Bill dataclass from src/src/models/bill.py. -/
structure Bill where
  bill_no : String
  date : String
  customer_name : String
  customer_no : String
  items : List BillItem
  subtotal : Rat
  discount : Rat
  tax_rate : Rat
  tax_amount : Rat
  total : Rat
  bill_details : Option String
  created_at : Option String
  updated_at : Option String
deriving DecidableEq

/-- Embeds Bill.calculate_subtotal: sum of item.get_total() over the items. -/
def Bill.calculate_subtotal (b : Bill) : Rat :=
  (b.items.map BillItem.get_total).sum

/-- Embeds Bill.calculate_tax: taxable_amount = subtotal - discount (no
clamping in the source), tax = taxable_amount * (tax_rate / 100). -/
def Bill.calculate_tax (b : Bill) : Rat :=
  let taxable_amount := b.subtotal - b.discount
  taxable_amount * (b.tax_rate / 100)

/-- Embeds Bill.calculate_total: subtotal - discount + tax_amount. -/
def Bill.calculate_total (b : Bill) : Rat :=
  b.subtotal - b.discount + b.tax_amount

/-- Embeds Bill._recalculate: sets subtotal, then tax_amount, then total,
in the source's order (each later step reads the earlier updates). -/
def Bill._recalculate (b : Bill) : Bill :=
  let b1 : Bill := { b with subtotal := b.calculate_subtotal }
  let b2 : Bill := { b1 with tax_amount := b1.calculate_tax }
  { b2 with total := b2.calculate_total }

/-- Embeds Bill.add_item: append the item, then recalculate. -/
def Bill.add_item (b : Bill) (item : BillItem) : Bill :=
  Bill._recalculate { b with items := b.items ++ [item] }

/-- Embeds Bill.remove_item: pop at the index and recalculate only when
0 <= index < len(items); otherwise do nothing. -/
def Bill.remove_item (b : Bill) (index : Int) : Bill :=
  if 0 ≤ index ∧ index < (b.items.length : Int) then
    Bill._recalculate { b with items := b.items.eraseIdx index.toNat }
  else
    b

/-- Embeds Bill.apply_discount: set discount (converting a percentage to an
amount against the current subtotal when requested), then recalculate. -/
def Bill.apply_discount (b : Bill) (discount : Rat) (is_percentage : Bool) : Bill :=
  let b1 : Bill :=
    if is_percentage then { b with discount := b.subtotal * (discount / 100) }
    else { b with discount := discount }
  Bill._recalculate b1

/-- Embeds Bill.set_tax_rate: set the rate, then recalculate. -/
def Bill.set_tax_rate (b : Bill) (tax_rate : Rat) : Bill :=
  Bill._recalculate { b with tax_rate := tax_rate }

/-- Embeds BillingService.create_bill from src/src/logic/billing.py: build a
Bill with the given fields (derived fields at their dataclass defaults of 0)
and run _recalculate, exactly as the source does. -/
def create_bill (bill_no date customer_name customer_no : String)
    (items : List BillItem) (discount : Rat) (tax_rate : Rat) : Bill :=
  Bill._recalculate
    { bill_no := bill_no
      date := date
      customer_name := customer_name
      customer_no := customer_no
      items := items
      subtotal := 0
      discount := discount
      tax_rate := tax_rate
      tax_amount := 0
      total := 0
      bill_details := none
      created_at := none
      updated_at := none }

/-- Consistency of a Bill's derived fields with its inputs, as computed by
the source's _recalculate: subtotal is the item sum, tax_amount is
(subtotal - discount) * tax_rate / 100, total is subtotal - discount +
tax_amount. -/
def Bill.consistent (b : Bill) : Prop :=
  b.subtotal = b.calculate_subtotal ∧
  b.tax_amount = (b.subtotal - b.discount) * (b.tax_rate / 100) ∧
  b.total = b.subtotal - b.discount + b.tax_amount

/-- Embeds the per-item CGST of PDFGenerator.generate_invoice
(src/src/utils/pdf_generator.py): taxable = qty * rate, cgst = taxable *
(half_tax / 100) with half_tax = tax_rate / 2. -/
def pdf_item_cgst (tax_rate : Rat) (it : BillItem) : Rat :=
  ((it.quantity : Rat) * it.unit_price) * ((tax_rate / 2) / 100)

/-- Embeds the per-item SGST of PDFGenerator.generate_invoice: identical
formula to the CGST column. -/
def pdf_item_sgst (tax_rate : Rat) (it : BillItem) : Rat :=
  ((it.quantity : Rat) * it.unit_price) * ((tax_rate / 2) / 100)

/-- Embeds total_cgst accumulated over the bill's items in
PDFGenerator.generate_invoice. -/
def pdf_total_cgst (b : Bill) : Rat :=
  (b.items.map (pdf_item_cgst b.tax_rate)).sum

/-- Embeds total_sgst accumulated over the bill's items in
PDFGenerator.generate_invoice. -/
def pdf_total_sgst (b : Bill) : Rat :=
  (b.items.map (pdf_item_sgst b.tax_rate)).sum

/-- State of the invoice_sequence table: date string to last_sequence, with
none for an absent row (the table has a unique key on date). -/
abbrev SeqDB := String → Option Nat

/-- Embeds the read/branch of BillingService.generate_invoice_number: the
SELECT of last_sequence for the date, then result[0] + 1 when a row exists
and 1 when none does. -/
def nextSeq (db : SeqDB) (date : String) : Nat :=
  match db date with
  | some last => last + 1
  | none => 1

/-- Embeds the write of BillingService.generate_invoice_number: UPDATE of the
existing row or INSERT of a new one, both leaving last_sequence at the new
sequence for this date and every other row untouched. -/
def storeSeq (db : SeqDB) (date : String) : SeqDB :=
  fun d => if d = date then some (nextSeq db date) else db d

/-- Embeds date.replace of generate_invoice_number, which deletes every
hyphen from the YYYY-MM-DD date string. -/
def dateKey (date : String) : String :=
  String.mk (date.data.filter (fun c => c ≠ '-'))

/-- Little-endian base-10 digit list computed with explicit fuel, embedding
the decimal rendering Python's d format specifier performs. -/
def toDecRevAux : Nat → Nat → List Nat
  | 0, _ => []
  | _ + 1, 0 => []
  | fuel + 1, n + 1 => ((n + 1) % 10) :: toDecRevAux fuel ((n + 1) / 10)

/-- Little-endian base-10 digits of n (fuel n is sufficient). -/
def decDigitsRev (n : Nat) : List Nat :=
  toDecRevAux n n

/-- Decimal rendering of a natural number, as Python's d format produces. -/
def natDecRepr (n : Nat) : String :=
  if n = 0 then "0" else String.mk (((decDigitsRev n).reverse).map Nat.digitChar)

/-- Embeds Python's 04d format specifier used by INVOICE_NUMBER_FORMAT in
src/config.py: the decimal digits, left-padded with zeros to width 4; wider
numbers render in full. -/
def format04d (n : Nat) : String :=
  let s := natDecRepr n
  String.mk (List.replicate (4 - s.length) '0' ++ s.data)

/-- Embeds INVOICE_PREFIX from src/config.py. -/
def invoicePrefixVal : String := "INV"

/-- Embeds INVOICE_NUMBER_FORMAT.format from src/config.py. -/
def formatInvoiceNumber (pre dk : String) (sequence : Nat) : String :=
  pre ++ "-" ++ dk ++ "-" ++ format04d sequence

/-- Embeds BillingService.generate_invoice_number for an explicit date: read
or create the row for the date, store the incremented sequence, and return
the formatted invoice number together with the updated table. -/
def generate_invoice_number (db : SeqDB) (date : String) : String × SeqDB :=
  let date_key := dateKey date
  let new_sequence := nextSeq db date
  let db2 := storeSeq db date
  (formatInvoiceNumber invoicePrefixVal date_key new_sequence, db2)

/-- Table state after k successive generate_invoice_number calls for the
same date. -/
def iterState (db : SeqDB) (date : String) : Nat → SeqDB
  | 0 => db
  | k + 1 => iterState (generate_invoice_number db date).2 date k

/-- Sequence integers returned by k successive generate_invoice_number calls
for the same date. -/
def callSeqs (db : SeqDB) (date : String) : Nat → List Nat
  | 0 => []
  | k + 1 => nextSeq db date :: callSeqs (generate_invoice_number db date).2 date k

/-- Failure of the underlying persistence, the error class the spec calls
PersistenceError; the source surfaces the underlying database exception
re-raised by DatabaseConnection.get_cursor. -/
inductive PersistenceError where
  | databaseError
deriving DecidableEq

/-- Where, if anywhere, the persistence fails inside the get_cursor block of
generate_invoice_number: at the SELECT, at the UPDATE/INSERT, or at commit. -/
inductive TxStep where
  | ok
  | failAtSelect
  | failAtWrite
  | failAtCommit
deriving DecidableEq

/-- Embeds generate_invoice_number run inside DatabaseConnection.get_cursor
(src/src/database/connection.py): on any exception the connection is rolled
back, so the table keeps its prior state, and the exception propagates, so
no invoice number is produced; only on success is the write committed and
the number formatted. -/
def generate_invoice_number_tx (db : SeqDB) (date : String) (step : TxStep) :
    Except PersistenceError String × SeqDB :=
  if step = TxStep.failAtSelect then (Except.error PersistenceError.databaseError, db)
  else
    let new_sequence := nextSeq db date
    if step = TxStep.failAtWrite then (Except.error PersistenceError.databaseError, db)
    else
      let pending := storeSeq db date
      if step = TxStep.failAtCommit then (Except.error PersistenceError.databaseError, db)
      else (Except.ok (formatInvoiceNumber invoicePrefixVal (dateKey date) new_sequence), pending)

/-- Invoice-sequence table with no rows at all. -/
def emptySeqDB : SeqDB := fun _ => none

/-- Invoice-sequence table holding one row: date 2026-01-09 with
last_sequence 5. -/
def sampleSeqDB : SeqDB :=
  fun d => if d = "2026-01-09" then some 5 else none

/-- Concrete one-item bill used to exercise the theorems on explicit
inputs. -/
def sampleBill : Bill where
  bill_no := "B1"
  date := "2026-01-08"
  customer_name := "c"
  customer_no := "9"
  items := [{ product_name := "x", quantity := 2, unit_price := 5 }]
  subtotal := 10
  discount := 1
  tax_rate := 18
  tax_amount := 0
  total := 0
  bill_details := none
  created_at := none
  updated_at := none

/-- Concrete extra item used to exercise add_item. -/
def sampleItem : BillItem where
  product_name := "y"
  quantity := 1
  unit_price := 3

/-- Item list of the discount-exceeds-subtotal scenario: one item with
quantity 1 and unit_price 30.00. -/
def discountExceedsItems : List BillItem :=
  [{ product_name := "x", quantity := 1, unit_price := 30 }]

/-- Bill computed by the source for the discount-exceeds-subtotal scenario:
discount 50.00 and tax_rate 12.0 on the single 30.00 item. -/
def discountExceedsBill : Bill :=
  create_bill "" "" "" "" discountExceedsItems 50 12

/-- Item list that makes the discount significant for the GST split: one
item with quantity 1 and unit_price 100.00. -/
def gstSplitItems : List BillItem :=
  [{ product_name := "x", quantity := 1, unit_price := 100 }]

/-- Bill computed by the source for the GST-split scenario: discount 50.00
and tax_rate 18.0 on the single 100.00 item. -/
def gstSplitBill : Bill :=
  create_bill "" "" "" "" gstSplitItems 50 18

theorem recalculate_consistent (b : Bill) : (Bill._recalculate b).consistent :=
  ⟨rfl, rfl, rfl⟩

/-- C9: after add_item, remove_item at a valid index, apply_discount, or
set_tax_rate, the derived fields agree with the inputs: subtotal is the sum
of quantity * unit_price over the items, tax_amount is
(subtotal - discount) * tax_rate / 100, and total is
subtotal - discount + tax_amount. -/
theorem c9_mutators_consistent (b : Bill) (item : BillItem) (index : Int)
    (d r : Rat) (pct : Bool)
    (h0 : 0 ≤ index) (h1 : index < (b.items.length : Int)) :
    (b.add_item item).consistent ∧ (b.remove_item index).consistent ∧
    (b.apply_discount d pct).consistent ∧ (b.set_tax_rate r).consistent := by
  refine ⟨recalculate_consistent _, ?_, recalculate_consistent _, recalculate_consistent _⟩
  unfold Bill.remove_item
  rw [if_pos ⟨h0, h1⟩]
  exact recalculate_consistent _

theorem c9_witness :
    (0 ≤ (0 : Int)) ∧ ((0 : Int) < (sampleBill.items.length : Int)) ∧
    ((sampleBill.add_item sampleItem).consistent ∧
      (sampleBill.remove_item 0).consistent ∧
      (sampleBill.apply_discount 2 false).consistent ∧
      (sampleBill.set_tax_rate 12).consistent) :=
  ⟨by decide, by decide, c9_mutators_consistent sampleBill sampleItem 0 2 12 false (by decide) (by decide)⟩

/-- C10: remove_item with a negative or too-large index is a no-op: it
raises nothing and returns the bill with every field unchanged. -/
theorem c10_remove_item_out_of_range (b : Bill) (index : Int)
    (h : index < 0 ∨ (b.items.length : Int) ≤ index) :
    b.remove_item index = b := by
  have hc : ¬ (0 ≤ index ∧ index < (b.items.length : Int)) := by omega
  unfold Bill.remove_item
  rw [if_neg hc]

theorem c10_witness :
    ((5 : Int) < 0 ∨ ((sampleBill.items.length : Int) ≤ 5)) ∧
    sampleBill.remove_item 5 = sampleBill :=
  ⟨by decide, c10_remove_item_out_of_range sampleBill 5 (by decide)⟩

/-- C8: the computed subtotal is the sum of quantity * unit_price over the
items, and the empty item list with discount 0 yields subtotal 0, taxable 0,
tax 0 and total 0. -/
theorem c8_subtotal_is_item_sum (bn dt cn cno : String) (items : List BillItem)
    (d r : Rat) :
    (create_bill bn dt cn cno items d r).subtotal
        = (items.map (fun it => (it.quantity : Rat) * it.unit_price)).sum ∧
    ((create_bill bn dt cn cno [] 0 r).subtotal = 0 ∧
      (create_bill bn dt cn cno [] 0 r).subtotal
          - (create_bill bn dt cn cno [] 0 r).discount = 0 ∧
      (create_bill bn dt cn cno [] 0 r).tax_amount = 0 ∧
      (create_bill bn dt cn cno [] 0 r).total = 0) := by
  refine ⟨rfl, ?_, ?_, ?_, ?_⟩ <;>
    simp [create_bill, Bill._recalculate, Bill.calculate_subtotal,
      Bill.calculate_tax, Bill.calculate_total]

theorem gst_halves_sum (l : List BillItem) (r : Rat) :
    (l.map (pdf_item_cgst r)).sum + (l.map (pdf_item_sgst r)).sum
      = (l.map BillItem.get_total).sum * (r / 100) := by
  induction l with
  | nil => simp
  | cons x xs ih =>
    simp only [List.map_cons, List.sum_cons, pdf_item_cgst, pdf_item_sgst,
      BillItem.get_total] at *
    linear_combination ih

/-- C1 (amended): the taxable amount on which the tax is computed is
subtotal - discount without any clamping, so it goes negative when the
discount exceeds the subtotal; for one item with quantity 1 and unit_price
30.00, discount 50.00 and tax_rate 12.0 the source yields subtotal 30.00,
taxable -20.00, tax -2.40 and total -22.40. -/
theorem c1_taxable_unclamped (bn dt cn cno : String) (items : List BillItem)
    (discount tax_rate : Rat) (hd : 0 ≤ discount) (hr : 0 ≤ tax_rate) :
    (create_bill bn dt cn cno items discount tax_rate).tax_amount
        = ((create_bill bn dt cn cno items discount tax_rate).subtotal - discount)
            * (tax_rate / 100) ∧
    (discountExceedsBill.subtotal = 30 ∧
      discountExceedsBill.subtotal - discountExceedsBill.discount = -20 ∧
      discountExceedsBill.tax_amount = -12 / 5 ∧
      discountExceedsBill.total = -112 / 5) :=
  ⟨rfl, by
    norm_num [discountExceedsBill, discountExceedsItems, create_bill,
      Bill._recalculate, Bill.calculate_subtotal, Bill.calculate_tax,
      Bill.calculate_total, BillItem.get_total]⟩

theorem c1_witness :
    (0 ≤ (50 : Rat)) ∧ (0 ≤ (12 : Rat)) ∧
    ((create_bill "" "" "" "" discountExceedsItems 50 12).tax_amount
        = ((create_bill "" "" "" "" discountExceedsItems 50 12).subtotal - 50)
            * (12 / 100) ∧
      (discountExceedsBill.subtotal = 30 ∧
        discountExceedsBill.subtotal - discountExceedsBill.discount = -20 ∧
        discountExceedsBill.tax_amount = -12 / 5 ∧
        discountExceedsBill.total = -112 / 5)) :=
  ⟨by norm_num, by norm_num,
    c1_taxable_unclamped "" "" "" "" discountExceedsItems 50 12 (by norm_num) (by norm_num)⟩

/-- C1 counterexample: at the claim's own concrete input (one item of
quantity 1 and unit_price 30.00, discount 50.00, tax_rate 12.0) the source's
tax is not computed on max(0, subtotal - discount): the tax is -2.40 rather
than 0.00 and the total is -22.40 rather than 0.00. -/
theorem c1_counterexample :
    discountExceedsBill.tax_amount
        ≠ max 0 (discountExceedsBill.subtotal - discountExceedsBill.discount)
            * (discountExceedsBill.tax_rate / 100) ∧
    discountExceedsBill.tax_amount ≠ 0 ∧ discountExceedsBill.total ≠ 0 := by
  norm_num [discountExceedsBill, discountExceedsItems, create_bill,
    Bill._recalculate, Bill.calculate_subtotal, Bill.calculate_tax,
    Bill.calculate_total, BillItem.get_total, max_def]

/-- C3 (amended): with taxable = subtotal - discount (unclamped, as the
source computes it), the totals satisfy total = taxable + tax_amount exactly
and tax_amount = taxable * tax_rate / 100 exactly. -/
theorem c3_additivity_unclamped (bn dt cn cno : String) (items : List BillItem)
    (discount tax_rate : Rat) (hd : 0 ≤ discount) (hr : 0 ≤ tax_rate) :
    (create_bill bn dt cn cno items discount tax_rate).total
        = ((create_bill bn dt cn cno items discount tax_rate).subtotal
            - (create_bill bn dt cn cno items discount tax_rate).discount)
          + (create_bill bn dt cn cno items discount tax_rate).tax_amount ∧
    (create_bill bn dt cn cno items discount tax_rate).tax_amount
        = ((create_bill bn dt cn cno items discount tax_rate).subtotal
            - (create_bill bn dt cn cno items discount tax_rate).discount)
          * ((create_bill bn dt cn cno items discount tax_rate).tax_rate / 100) :=
  ⟨rfl, rfl⟩

theorem c3_witness :
    (0 ≤ (50 : Rat)) ∧ (0 ≤ (12 : Rat)) ∧
    ((create_bill "" "" "" "" discountExceedsItems 50 12).total
        = ((create_bill "" "" "" "" discountExceedsItems 50 12).subtotal
            - (create_bill "" "" "" "" discountExceedsItems 50 12).discount)
          + (create_bill "" "" "" "" discountExceedsItems 50 12).tax_amount ∧
      (create_bill "" "" "" "" discountExceedsItems 50 12).tax_amount
        = ((create_bill "" "" "" "" discountExceedsItems 50 12).subtotal
            - (create_bill "" "" "" "" discountExceedsItems 50 12).discount)
          * ((create_bill "" "" "" "" discountExceedsItems 50 12).tax_rate / 100)) :=
  ⟨by norm_num, by norm_num,
    c3_additivity_unclamped "" "" "" "" discountExceedsItems 50 12 (by norm_num) (by norm_num)⟩

/-- C3 counterexample: with taxable read as max(0, subtotal - discount), as
the claim states it, both claimed equalities fail on the source at the
discount-exceeds-subtotal input: total is -22.40 while taxable + tax is
-2.40, and tax_amount is -2.40 while taxable * tax_rate / 100 is 0. -/
theorem c3_counterexample :
    ¬ (discountExceedsBill.total
          = max 0 (discountExceedsBill.subtotal - discountExceedsBill.discount)
            + discountExceedsBill.tax_amount ∧
        discountExceedsBill.tax_amount
          = max 0 (discountExceedsBill.subtotal - discountExceedsBill.discount)
            * (discountExceedsBill.tax_rate / 100)) := by
  norm_num [discountExceedsBill, discountExceedsItems, create_bill,
    Bill._recalculate, Bill.calculate_subtotal, Bill.calculate_tax,
    Bill.calculate_total, BillItem.get_total, max_def]

/-- C4 (amended): the CGST and SGST amounts of the invoice document are each
computed per item on quantity * unit_price at tax_rate / 2, ignoring the
discount, so cgst + sgst = subtotal * tax_rate / 100; this equals the bill's
tax_amount exactly when discount = 0 (and in general differs from it by
discount * tax_rate / 100). -/
theorem c4_gst_split_ignores_discount (bn dt cn cno : String)
    (items : List BillItem) (discount tax_rate : Rat)
    (hd : 0 ≤ discount) (hr : 0 ≤ tax_rate) :
    pdf_total_cgst (create_bill bn dt cn cno items discount tax_rate)
        + pdf_total_sgst (create_bill bn dt cn cno items discount tax_rate)
      = (create_bill bn dt cn cno items discount tax_rate).subtotal
          * (tax_rate / 100) ∧
    (discount = 0 →
      pdf_total_cgst (create_bill bn dt cn cno items discount tax_rate)
          + pdf_total_sgst (create_bill bn dt cn cno items discount tax_rate)
        = (create_bill bn dt cn cno items discount tax_rate).tax_amount) := by
  constructor
  · exact gst_halves_sum items tax_rate
  · intro h0
    subst h0
    have h2 : (create_bill bn dt cn cno items 0 tax_rate).tax_amount
        = ((items.map BillItem.get_total).sum - 0) * (tax_rate / 100) := rfl
    rw [h2, sub_zero]
    exact gst_halves_sum items tax_rate

theorem c4_witness :
    (0 ≤ (0 : Rat)) ∧ (0 ≤ (18 : Rat)) ∧
    (pdf_total_cgst (create_bill "" "" "" "" gstSplitItems 0 18)
        + pdf_total_sgst (create_bill "" "" "" "" gstSplitItems 0 18)
      = (create_bill "" "" "" "" gstSplitItems 0 18).subtotal * ((18 : Rat) / 100) ∧
    ((0 : Rat) = 0 →
      pdf_total_cgst (create_bill "" "" "" "" gstSplitItems 0 18)
          + pdf_total_sgst (create_bill "" "" "" "" gstSplitItems 0 18)
        = (create_bill "" "" "" "" gstSplitItems 0 18).tax_amount)) :=
  ⟨by norm_num, by norm_num,
    c4_gst_split_ignores_discount "" "" "" "" gstSplitItems 0 18 (by norm_num) (by norm_num)⟩

/-- C4 counterexample: for one item of quantity 1 and unit_price 100.00 with
discount 50.00 and tax_rate 18.0, the invoice document's cgst + sgst is
9.00 + 9.00 = 18.00 while the bill's tax_amount is (100 - 50) * 18 / 100 =
9.00, so cgst + sgst differs from tax. -/
theorem c4_counterexample :
    pdf_total_cgst gstSplitBill + pdf_total_sgst gstSplitBill
      ≠ gstSplitBill.tax_amount := by
  norm_num [gstSplitBill, gstSplitItems, create_bill, Bill._recalculate,
    Bill.calculate_subtotal, Bill.calculate_tax, Bill.calculate_total,
    BillItem.get_total, pdf_total_cgst, pdf_total_sgst, pdf_item_cgst,
    pdf_item_sgst]

theorem callSeqs_from_some : ∀ (k : Nat) (db : SeqDB) (d : String) (n : Nat),
    db d = some n →
    callSeqs db d k = List.range' (n + 1) k ∧ iterState db d k d = some (n + k) := by
  intro k
  induction k with
  | zero =>
    intro db d n h
    exact ⟨rfl, h⟩
  | succ m ih =>
    intro db d n h
    have hnext : nextSeq db d = n + 1 := by simp [nextSeq, h]
    have hstore : storeSeq db d d = some (n + 1) := by simp [storeSeq, hnext]
    obtain ⟨h1, h2⟩ := ih (storeSeq db d) d (n + 1) hstore
    constructor
    · show nextSeq db d :: callSeqs (storeSeq db d) d m = List.range' (n + 1) (m + 1)
      rw [hnext, h1]
      rfl
    · show iterState (storeSeq db d) d m d = some (n + (m + 1))
      rw [h2]
      congr 1
      omega

/-- C2: starting from no sequence row for the date, k successive calls of
generate_invoice_number for that date return exactly the sequence integers
1, 2, ..., k (strictly increasing, no gaps, no repeats), and drive the
stored row through absent, present(1), ..., present(k): after the calls the
row holds k, each call having stored the previous stored value plus 1. -/
theorem c2_sequence_trace (db : SeqDB) (d : String) (k : Nat) (h : db d = none) :
    callSeqs db d k = List.range' 1 k ∧
    iterState db d k d = (if k = 0 then none else some k) := by
  cases k with
  | zero => exact ⟨rfl, h⟩
  | succ m =>
    have hnext : nextSeq db d = 1 := by simp [nextSeq, h]
    have hstore : storeSeq db d d = some 1 := by simp [storeSeq, hnext]
    obtain ⟨h1, h2⟩ := callSeqs_from_some m (storeSeq db d) d 1 hstore
    constructor
    · show nextSeq db d :: callSeqs (storeSeq db d) d m = List.range' 1 (m + 1)
      rw [hnext, h1]
      rfl
    · show iterState (storeSeq db d) d m d = some (m + 1)
      rw [h2]
      congr 1
      omega

theorem c2_witness :
    emptySeqDB "2026-01-08" = none ∧
    (callSeqs emptySeqDB "2026-01-08" 3 = List.range' 1 3 ∧
      iterState emptySeqDB "2026-01-08" 3 "2026-01-08"
        = (if 3 = 0 then none else some 3)) :=
  ⟨rfl, c2_sequence_trace emptySeqDB "2026-01-08" 3 rfl⟩

/-- C6: any number of generate_invoice_number calls for one date leave the
stored sequence row of every other date exactly as it was. -/
theorem c6_cross_date_frame (db : SeqDB) (d1 d2 : String) (k : Nat) (h : d1 ≠ d2) :
    iterState db d1 k d2 = db d2 := by
  induction k generalizing db with
  | zero => rfl
  | succ m ih =>
    show iterState (storeSeq db d1) d1 m d2 = db d2
    rw [ih (storeSeq db d1)]
    simp only [storeSeq]
    rw [if_neg (Ne.symm h)]

theorem c6_witness :
    ("2026-01-08" : String) ≠ "2026-01-09" ∧
    iterState sampleSeqDB "2026-01-08" 2 "2026-01-09" = sampleSeqDB "2026-01-09" :=
  ⟨by decide, c6_cross_date_frame sampleSeqDB "2026-01-08" "2026-01-09" 2 (by decide)⟩

/-- C7: whenever the persistence fails inside the generate_invoice_number
transaction (at the SELECT, the UPDATE/INSERT, or the commit), the call
surfaces the persistence error and no invoice number, and the rollback of
DatabaseConnection.get_cursor leaves the sequence table unchanged. -/
theorem c7_persistence_failure_rollback (db : SeqDB) (d : String) (step : TxStep)
    (h : step ≠ TxStep.ok) :
    (generate_invoice_number_tx db d step).1
        = Except.error PersistenceError.databaseError ∧
    (generate_invoice_number_tx db d step).2 = db := by
  cases step with
  | ok => exact absurd rfl h
  | failAtSelect => exact ⟨rfl, rfl⟩
  | failAtWrite => exact ⟨rfl, rfl⟩
  | failAtCommit => exact ⟨rfl, rfl⟩

theorem c7_witness :
    TxStep.failAtWrite ≠ TxStep.ok ∧
    ((generate_invoice_number_tx emptySeqDB "2026-01-08" TxStep.failAtWrite).1
        = Except.error PersistenceError.databaseError ∧
      (generate_invoice_number_tx emptySeqDB "2026-01-08" TxStep.failAtWrite).2
        = emptySeqDB) :=
  ⟨by decide,
    c7_persistence_failure_rollback emptySeqDB "2026-01-08" TxStep.failAtWrite (by decide)⟩

theorem toDecRevAux_eq_digits : ∀ (fuel n : Nat), n ≤ fuel →
    toDecRevAux fuel n = Nat.digits 10 n := by
  intro fuel
  induction fuel with
  | zero =>
    intro n h
    have h0 : n = 0 := Nat.le_zero.mp h
    subst h0
    simp [toDecRevAux]
  | succ f ih =>
    intro n h
    match n with
    | 0 => simp [toDecRevAux]
    | m + 1 =>
      have hdiv : (m + 1) / 10 ≤ f := by
        have hlt : (m + 1) / 10 < m + 1 := Nat.div_lt_self (Nat.succ_pos m) (by norm_num)
        omega
      show ((m + 1) % 10) :: toDecRevAux f ((m + 1) / 10) = Nat.digits 10 (m + 1)
      rw [ih ((m + 1) / 10) hdiv]
      exact (Nat.digits_def' (by norm_num : (1 : ℕ) < 10) (Nat.succ_pos m)).symm

theorem decDigitsRev_eq_digits (n : Nat) : decDigitsRev n = Nat.digits 10 n :=
  toDecRevAux_eq_digits n n (Nat.le_refl n)

theorem string_mk_data (s : String) : String.mk s.data = s := rfl

theorem natDecRepr_length (n : Nat) (h : n ≠ 0) :
    (natDecRepr n).length = (Nat.digits 10 n).length := by
  rw [natDecRepr, if_neg h]
  show ((decDigitsRev n).reverse.map Nat.digitChar).length = _
  rw [List.length_map, List.length_reverse, decDigitsRev_eq_digits]

theorem four_le_natDecRepr_length (n : Nat) (h : 9999 < n) :
    4 ≤ (natDecRepr n).length := by
  have hn : n ≠ 0 := by omega
  rw [natDecRepr_length n hn]
  by_contra hlt
  have h4 : (Nat.digits 10 n).length ≤ 3 := by omega
  have hpow := Nat.lt_base_pow_length_digits (b := 10) (m := n) (by norm_num)
  have hle : (10 : ℕ) ^ (Nat.digits 10 n).length ≤ 10 ^ 3 :=
    Nat.pow_le_pow_right (by norm_num) h4
  omega

theorem format04d_wide (n : Nat) (h : 9999 < n) : format04d n = natDecRepr n := by
  have h4 : 4 ≤ (natDecRepr n).length := four_le_natDecRepr_length n h
  show String.mk (List.replicate (4 - (natDecRepr n).length) '0' ++ (natDecRepr n).data)
      = natDecRepr n
  rw [Nat.sub_eq_zero_of_le h4, List.replicate_zero, List.nil_append, string_mk_data]

theorem format04d_length (n : Nat) :
    (format04d n).length = max 4 (natDecRepr n).length := by
  show (List.replicate (4 - (natDecRepr n).length) '0' ++ (natDecRepr n).data).length = _
  rw [List.length_append, List.length_replicate]
  show 4 - (natDecRepr n).length + (natDecRepr n).data.length = _
  have hdata : (natDecRepr n).data.length = (natDecRepr n).length := rfl
  rw [hdata]
  omega

/-- C5: the invoice number returned by generate_invoice_number is the string
INV-{date with hyphens removed}-{sequence}, where the sequence field is the
decimal rendering padded to width at least 4 (its length is
max 4 (digit count)), and past 9999 the field is exactly the full decimal
rendering, never truncated or wrapped; in particular sequence 10000 renders
as 10000. -/
theorem c5_invoice_number_format (db : SeqDB) (d : String) (n : Nat)
    (h : 9999 < n) :
    (generate_invoice_number db d).1
        = "INV" ++ "-" ++ dateKey d ++ "-" ++ format04d (nextSeq db d) ∧
    (format04d (nextSeq db d)).length = max 4 (natDecRepr (nextSeq db d)).length ∧
    format04d n = natDecRepr n ∧
    format04d 10000 = "10000" :=
  ⟨rfl, format04d_length (nextSeq db d), format04d_wide n h, rfl⟩

theorem c5_witness :
    9999 < 10000 ∧
    ((generate_invoice_number emptySeqDB "2026-01-08").1
        = "INV" ++ "-" ++ dateKey "2026-01-08" ++ "-"
            ++ format04d (nextSeq emptySeqDB "2026-01-08") ∧
      (format04d (nextSeq emptySeqDB "2026-01-08")).length
        = max 4 (natDecRepr (nextSeq emptySeqDB "2026-01-08")).length ∧
      format04d 10000 = natDecRepr 10000 ∧
      format04d 10000 = "10000") :=
  ⟨by decide, c5_invoice_number_format emptySeqDB "2026-01-08" 10000 (by decide)⟩
